import Mathlib

/-!
# LangCache shadow-mode harness: a shallow embedding

This file embeds, in Lean, the behaviour of the LangCache shadow-mode
evaluation harness and settles the specification claims C1-C10 against it.

The embedding covers:

* `FlaskApp` — the `/query` handler of `examples/flask-app/app.py`: the
  shadow-mode instrumentation path, the normal (cache-serving) path, the
  passthrough path, and the shadow record it persists.
* `SimpleChatbot` — `chat_with_langcache_live` of
  `examples/simple-chatbot/app.py`: the live decision engine with its
  similarity threshold, fallthrough, best-effort store, and exception
  handling.
* `Analytics` — `analytics/analyze_shadow_data.py`: the file loader and the
  `analyze` method (summary, percentiles, similarity distribution,
  time-series grouping, recommendations), plus the pilot loader of
  `how-to-analyze-your-data/analyze_pilot_data.py`.

Conventions of the embedding:

* Python floats are modelled as `ℚ`; `round(x, d)` (round half to even) is
  `pyRound d x`.
* A JSON key that is absent or bound to `None`/`null` is an `Option` that is
  `none`; `d.get(k, default)` is `Option.getD`.
* A Python callable that can raise is a value of `Except String α`; a network
  call is represented by the outcome it would produce (the probe, LLM and
  store outcomes are inputs of the embedded function).
* Wall-clock measurements are inputs (`ℚ` parameters): the control flow never
  branches on them in the source, so they are opaque data here.
-/

namespace FlaskApp

/-- One candidate returned by `search_langcache` (ordered JSON array element
with keys `response`, `distance`, `prompt`, each possibly absent). -/
structure Candidate where
  response : Option String
  distance : Option ℚ
  prompt : Option String
deriving DecidableEq, Repr

/-- The caller-visible payload of the `/query` route: the fields of the
`jsonify` return that are data (the wall-clock `time_taken` is an opaque
measurement, carried separately by the handler's `elapsedMs` input). -/
structure QueryResponse where
  response : String
  source : String
  similarity : Option ℚ
deriving DecidableEq, Repr

/-- The shadow record built in the `SHADOW_MODE` branch of `query` and passed
to `log_shadow_data` (fields of the `shadow_data` dict; `request_id` and
`timestamp`, generated at write time, are outside the handler). -/
structure ShadowRecord where
  query : String
  llm_response : String
  cache_hit : Bool
  cache_response : Option String
  similarity_score : Option ℚ
  matched_query : Option String
  llm_latency_ms : ℚ
deriving DecidableEq, Repr

/-- Everything the `/query` handler does that is observable: the reply
returned to the caller, the shadow record it logs (if any), and whether it
issued a `store_in_langcache` call. -/
structure QueryOutcome where
  reply : QueryResponse
  shadowRecord : Option ShadowRecord
  storedInCache : Bool
deriving DecidableEq, Repr

/-- The `/query` handler of `examples/flask-app/app.py` (lines 189-326).

Inputs stand for the outcomes of the handler's collaborators:
`searchResults` is what `search_langcache` returns (that function catches all
its own exceptions and degrades to `[]`, so it never raises);
`llmResponse` is what `generate_gemini_response` returns (it also catches all
exceptions, returning an apology string); `queryText` is the user's query and
`elapsedMs` the measured latency.  Because both collaborators swallow their
exceptions and `store_in_langcache`/`log_shadow_data` do too, the handler's
`except` branch at line 285 is unreachable and has no counterpart here.

`useLangcache` is the `USE_LANGCACHE` flag (cache configured at all) and
`shadowMode` is `SHADOW_MODE`. -/
def query (useLangcache shadowMode : Bool) (searchResults : List Candidate)
    (llmResponse queryText : String) (elapsedMs : ℚ) : QueryOutcome :=
  if useLangcache then
    if shadowMode then
      -- SHADOW MODE: always call the LLM, ignore the cache response
      match searchResults with
      | best :: _ =>
        { reply := { response := llmResponse, source := "llm", similarity := none },
          shadowRecord := some
            { query := queryText
              llm_response := llmResponse
              cache_hit := true
              cache_response := some (best.response.getD "")
              similarity_score := some (1 - best.distance.getD 1)
              matched_query := some (best.prompt.getD "")
              llm_latency_ms := elapsedMs },
          storedInCache := false }
      | [] =>
        { reply := { response := llmResponse, source := "llm", similarity := none },
          shadowRecord := some
            { query := queryText
              llm_response := llmResponse
              cache_hit := false
              cache_response := none
              similarity_score := none
              matched_query := none
              llm_latency_ms := elapsedMs },
          storedInCache := true }
    else
      -- NORMAL MODE: serve the best match on a hit, else LLM + store
      match searchResults with
      | best :: _ =>
        { reply := { response := best.response.getD ""
                     source := "cache"
                     similarity := some (1 - best.distance.getD 1) },
          shadowRecord := none,
          storedInCache := false }
      | [] =>
        { reply := { response := llmResponse, source := "llm", similarity := none },
          shadowRecord := none,
          storedInCache := true }
  else
    -- cache disabled / not configured: transparent passthrough to the LLM
    { reply := { response := llmResponse, source := "llm", similarity := none },
      shadowRecord := none,
      storedInCache := false }

/-- `log_shadow_data` persists records append-only (a fresh `shadow:<uuid>`
Redis key, or one new line appended to `shadow_mode.log`); modelled as pure
list append on the store's contents. -/
def log_shadow_data (store : List ShadowRecord) (r : ShadowRecord) :
    List ShadowRecord :=
  store ++ [r]

end FlaskApp

namespace SimpleChatbot

/-- One candidate in the live-mode search reply (keys `similarity`, `prompt`,
`response`, each possibly absent). -/
structure LiveCandidate where
  similarity : Option ℚ
  prompt : Option String
  response : Option String
deriving DecidableEq, Repr

/-- A completed (non-raising) HTTP reply to the cache search: status code and
the decoded candidate array (only consulted when the status is 200). -/
structure SearchReply where
  status : Nat
  results : List LiveCandidate
deriving DecidableEq, Repr

/-- The metadata dict returned by `chat_with_langcache_live`.  Keys that a
given return site omits are modelled as `none` (the source's dicts carry
`similarity`/`matched_query` explicitly as `None` in some variants and omit
`cache_latency`/`llm_latency` in others; both are `none` here). -/
structure LiveResult where
  response : String
  cached : Bool
  source : String
  reason : String
  similarity : Option ℚ
  matched_query : Option String
  cache_latency : Option ℚ
  llm_latency : Option ℚ
deriving DecidableEq, Repr

/-- The dict built in the generic `except Exception` handler (lines 206-216):
the LLM is invoked (again) and its text returned with reason
`error: <detail>`. -/
def errorResult (llmText detail : String) : LiveResult :=
  { response := llmText, cached := false, source := "openai",
    reason := "error: " ++ detail, similarity := none, matched_query := none,
    cache_latency := none, llm_latency := none }

/-- `chat_with_langcache_live` of `examples/simple-chatbot/app.py`
(lines 82-216).

Inputs stand for the outcomes of the three network interactions:
`search` is the cache probe (`Except.error` = `requests.post` raised;
`Except.ok` = a reply with a status code and decoded body), `llm` is
`get_openai_response` (deterministic in the embedding: every invocation in
one run yields this same outcome), and `store` is the entries POST
(`Except.ok` carries its status code, which the source only prints).
`hasCreds` is the `langcache_api_key and langcache_cache_id` check;
`cacheLatencyMs`/`llmLatencyMs` are the measured wall-clock times.

Control flow mirrors the source: everything from the probe to the store
runs inside one `try`; an exception from any of them lands in the generic
handler, which calls the LLM once more and returns `errorResult` — so an
exception of that second call (only possible when `llm` itself is an error)
is the only one that propagates. -/
def chat_with_langcache_live (hasCreds : Bool)
    (search : Except String SearchReply)
    (llm : Except String String)
    (store : Except String Nat)
    (cacheLatencyMs llmLatencyMs : ℚ) : Except String LiveResult :=
  match hasCreds with
  | false =>
    -- credentials missing: direct OpenAI call, outside the try block
    match llm with
    | .error e => .error e
    | .ok t =>
      .ok { response := t, cached := false, source := "openai",
            reason := "missing_credentials", similarity := none,
            matched_query := none, cache_latency := none, llm_latency := none }
  | true =>
    match search with
    | .error e =>
      -- probe raised: generic handler (LLM call + errorResult)
      match llm with
      | .error e2 => .error e2
      | .ok t => .ok (errorResult t e)
    | .ok reply =>
      -- the early return for a high-confidence hit, if it fires
      let hit : Option LiveResult :=
        if reply.status = 200 then
          match reply.results with
          | [] => none
          | best :: _ =>
            let sim := best.similarity.getD 0
            let cachedResponse := best.response.getD ""
            if 8/10 < sim ∧ cachedResponse ≠ "" then
              some { response := cachedResponse, cached := true,
                     source := "langcache", similarity := some sim,
                     matched_query := some (best.prompt.getD ""),
                     reason := "cache_hit",
                     cache_latency := some cacheLatencyMs, llm_latency := none }
            else none
        else none
      match hit with
      | some r => .ok r
      | none =>
        -- fallthrough: fresh LLM call, then best-effort store
        match llm with
        | .error e =>
          -- LLM raised inside the try: the handler retries the LLM,
          -- which raises again, and that exception propagates
          .error e
        | .ok fresh =>
          match store with
          | .error e =>
            -- store raised after the LLM answered: generic handler,
            -- which re-invokes the LLM and discards the miss annotation
            .ok (errorResult fresh e)
          | .ok _status =>
            -- a non-200 store status is only printed; the miss dict is
            -- returned either way
            .ok { response := fresh, cached := false, source := "openai",
                  similarity := none, matched_query := none,
                  reason := "cache_miss", cache_latency := none,
                  llm_latency := some llmLatencyMs }

end SimpleChatbot

namespace Analytics

/-- Python's `round` to an integer: round half to even (banker's rounding). -/
def roundHalfEven (q : ℚ) : ℤ :=
  if q - q.floor < 1/2 then q.floor
  else if 1/2 < q - q.floor then q.floor + 1
  else if q.floor % 2 = 0 then q.floor else q.floor + 1

/-- Python's `round(x, d)`: round half to even at `d` decimal places. -/
def pyRound (d : ℕ) (q : ℚ) : ℚ :=
  (roundHalfEven (q * 10 ^ d) : ℚ) / 10 ^ d

/-- `statistics.mean(xs) if xs else 0`, the pattern the analyzers use. -/
def listMean (l : List ℚ) : ℚ :=
  if l = [] then 0 else l.sum / l.length

/-- One shadow record as the analyzer reads it back: the JSON keys `analyze`
consults.  An absent key and a `null` value are both `none`. -/
structure LogRecord where
  cache_hit : Bool
  llm_latency_ms : Option ℚ
  cache_latency_ms : Option ℚ
  similarity_score : Option ℚ
  timestamp : String
deriving DecidableEq, Repr

/-- The Python-truthiness filter `[d.get(k, 0) for d in data if d.get(k)]`
applied to an optional float field: keeps a value iff it is present and
nonzero (`None`, a missing key, and `0`/`0.0` are all falsy). -/
def truthyValues (f : LogRecord → Option ℚ) (data : List LogRecord) : List ℚ :=
  data.filterMap fun d =>
    match f d with
    | none => none
    | some q => if q = 0 then none else some q

/-- `ShadowDataAnalyzer.load_from_file` (analytics/analyze_shadow_data.py,
lines 39-49).  The input is the file's non-blank lines, each already decoded:
`some r` for a line holding valid JSON, `none` for a malformed line.  The
whole `for` loop sits inside one `try`, so the first malformed line raises
`json.JSONDecodeError` out of the loop into the outer handler: records
appended before it are kept, everything from that line on is lost. -/
def load_from_file (lines : List (Option LogRecord)) : List LogRecord :=
  (lines.takeWhile Option.isSome).filterMap id

/-- `PilotDataAnalyzer.load_from_file`
(how-to-analyze-your-data/analyze_pilot_data.py, lines 35-49).  Here the
`json.loads` of each line sits in its own inner `try`, so a malformed line
only prints a warning and the loop continues: every well-formed line is
kept regardless of position.  (The pilot record shape differs, but the
loading discipline is shape-independent, so the same record type is used.) -/
def load_from_file_pilot (lines : List (Option LogRecord)) : List LogRecord :=
  lines.filterMap id

/-- The four latency percentiles of `_calculate_percentiles`. -/
structure Percentiles where
  p50 : ℚ
  p90 : ℚ
  p95 : ℚ
  p99 : ℚ
deriving DecidableEq, Repr

/-- `_calculate_percentiles` (analytics/analyze_shadow_data.py, lines
135-148): sort ascending, index at `int(n * q)` (which is `⌊n·q⌋`, i.e.
`n * q_pct / 100` in exact arithmetic).  Returns `none` for the empty list
(the source returns `{}`). -/
def _calculate_percentiles (values : List ℚ) : Option Percentiles :=
  match values with
  | [] => none
  | _ =>
    let sorted_values := List.insertionSort (· ≤ ·) values
    let n := sorted_values.length
    some { p50 := sorted_values.getD (n * 50 / 100) 0
           p90 := sorted_values.getD (n * 90 / 100) 0
           p95 := sorted_values.getD (n * 95 / 100) 0
           p99 := sorted_values.getD (n * 99 / 100) 0 }

/-- The fixed-bucket similarity histogram of
`_analyze_similarity_distribution`. -/
structure SimilarityDistribution where
  very_high : ℕ
  high : ℕ
  medium : ℕ
  low : ℕ
  very_low : ℕ
deriving DecidableEq, Repr

/-- `_analyze_similarity_distribution` (lines 150-175): an `elif` chain over
`[0.9,∞) [0.8,0.9) [0.7,0.8) [0.6,0.7) (-∞,0.6)`; `none` for no data. -/
def _analyze_similarity_distribution (similarities : List ℚ) :
    Option SimilarityDistribution :=
  match similarities with
  | [] => none
  | _ =>
    some { very_high := similarities.countP fun s => decide ((9/10 : ℚ) ≤ s)
           high := similarities.countP fun s =>
             decide ((8/10 : ℚ) ≤ s ∧ s < 9/10)
           medium := similarities.countP fun s =>
             decide ((7/10 : ℚ) ≤ s ∧ s < 8/10)
           low := similarities.countP fun s =>
             decide ((6/10 : ℚ) ≤ s ∧ s < 7/10)
           very_low := similarities.countP fun s => decide (s < (6/10 : ℚ)) }

/-- Per-hour counters accumulated by `_analyze_by_time`. -/
structure HourStat where
  total : ℕ
  hits : ℕ
deriving DecidableEq, Repr

/-- Models `datetime.fromisoformat(ts.replace('Z', '+00:00'))` followed by
`strftime('%Y-%m-%d %H:00')` on the ISO-8601 strings the writers emit
(`YYYY-MM-DDTHH:MM:SS[.ffffff][offset]`): the hour bucket is the date and
hour with minutes zeroed, and a string without that shape fails to parse
(`none`), which the source's bare `except: continue` turns into skipping
the record. -/
def hourBucket (ts : String) : Option String :=
  let cs := ts.toList
  if 13 ≤ cs.length
      ∧ (cs.take 4).all Char.isDigit
      ∧ cs.getD 4 ' ' = '-'
      ∧ ((cs.drop 5).take 2).all Char.isDigit
      ∧ cs.getD 7 ' ' = '-'
      ∧ ((cs.drop 8).take 2).all Char.isDigit
      ∧ cs.getD 10 ' ' = 'T'
      ∧ ((cs.drop 11).take 2).all Char.isDigit then
    some (String.mk (cs.take 10) ++ " " ++ String.mk ((cs.drop 11).take 2)
      ++ ":00")
  else none

/-- One step of the `hourly_data` dict update: bump `total` (and `hits` on a
cache hit) under `key`, inserting the key at the end on first sight —
Python dicts iterate in insertion order, which the association list keeps. -/
def bumpHour (key : String) (hit : Bool) :
    List (String × HourStat) → List (String × HourStat)
  | [] => [(key, ⟨1, if hit then 1 else 0⟩)]
  | (k, st) :: rest =>
    if k = key then
      (k, ⟨st.total + 1, st.hits + if hit then 1 else 0⟩) :: rest
    else
      (k, st) :: bumpHour key hit rest

/-- The `time_analysis` component of the report. -/
structure TimeAnalysis where
  hourly_hit_rates : List (String × ℚ)
  peak_hour : Option String
  total_hours_analyzed : ℕ
deriving DecidableEq, Repr

/-- `max(keys, key=lambda h: total)` over the hourly dict: the first key (in
insertion order) whose total is maximal; `None` when there are no buckets. -/
def peakHour (buckets : List (String × HourStat)) : Option String :=
  (buckets.foldl
    (fun best kv =>
      match best with
      | none => some kv
      | some b => if b.2.total < kv.2.total then some kv else some b)
    none).map (·.1)

/-- `_analyze_by_time` (lines 102-133): group records by UTC hour of their
`timestamp`, skipping unparsable ones; per-bucket hit rate in percent,
rounded to 2 places; peak hour; bucket count. -/
def _analyze_by_time (data : List LogRecord) : TimeAnalysis :=
  let hourly_data := data.foldl
    (fun acc r =>
      match hourBucket r.timestamp with
      | none => acc
      | some key => bumpHour key r.cache_hit acc)
    []
  { hourly_hit_rates := hourly_data.map fun kv =>
      (kv.1,
        pyRound 2 (if 0 < kv.2.total then ((kv.2.hits : ℚ) / kv.2.total) * 100
                   else 0))
    peak_hour := peakHour hourly_data
    total_hours_analyzed := hourly_data.length }

/-- `_generate_recommendations` (lines 177-195), keyed off the unrounded
hit rate, mean similarity and latency improvement. -/
def _generate_recommendations (hit_rate avg_similarity latency_improvement : ℚ) :
    List String :=
  let recommendations :=
    (if hit_rate < 20 then
      ["Low hit rate detected. Consider expanding your cache with more diverse content."]
    else if 60 < hit_rate then
      ["Excellent hit rate! LangCache would provide significant performance benefits."]
    else [])
    ++ (if avg_similarity < 7/10 then
      ["Low similarity scores. Consider adjusting similarity thresholds or improving query preprocessing."]
    else [])
    ++ (if 500 < latency_improvement then
      ["Significant latency improvements possible. LangCache could greatly enhance user experience."]
    else [])
  if recommendations = [] then
    ["Shadow mode data looks good. Consider proceeding with production deployment."]
  else recommendations

/-- The `summary` block of the analysis dict. -/
structure Summary where
  total_queries : ℕ
  cache_hits : ℕ
  cache_misses : ℕ
  hit_rate_percent : ℚ
  avg_llm_latency_ms : ℚ
  avg_cache_latency_ms : ℚ
  latency_improvement_ms : ℚ
  avg_similarity_score : ℚ
  estimated_cost_savings_usd : ℚ
deriving DecidableEq, Repr

/-- The full analysis dict returned by `analyze` on non-empty data. -/
structure Report where
  summary : Summary
  latency_percentiles : Option Percentiles
  cache_latency_percentiles : Option Percentiles
  similarity_distribution : Option SimilarityDistribution
  time_analysis : TimeAnalysis
  recommendations : List String
deriving DecidableEq, Repr

/-- `ShadowDataAnalyzer.analyze` (analytics/analyze_shadow_data.py, lines
51-100).  Empty data short-circuits to the `{"error": "No data to analyze"}`
dict, modelled as `Except.error`.  The latency lists use Python truthiness
(`if d.get(k)`), the similarity list uses `is not None`; cost savings assume
100 tokens per hit at $0.002 per 1K tokens. -/
def analyze (data : List LogRecord) : Except String Report :=
  if data = [] then .error "No data to analyze"
  else
    let total_queries := data.length
    let cache_hits := data.countP (·.cache_hit)
    let cache_misses := total_queries - cache_hits
    let hit_rate : ℚ :=
      if 0 < total_queries then ((cache_hits : ℚ) / total_queries) * 100 else 0
    let llm_latencies := truthyValues (·.llm_latency_ms) data
    let cache_latencies := truthyValues (·.cache_latency_ms) data
    let avg_llm_latency := listMean llm_latencies
    let avg_cache_latency := listMean cache_latencies
    let latency_improvement := avg_llm_latency - avg_cache_latency
    let similarities := data.filterMap (·.similarity_score)
    let avg_similarity := listMean similarities
    let estimated_tokens_saved : ℚ := (cache_hits : ℚ) * 100
    let estimated_cost_savings := (estimated_tokens_saved / 1000) * (2/1000)
    .ok
      { summary :=
          { total_queries := total_queries
            cache_hits := cache_hits
            cache_misses := cache_misses
            hit_rate_percent := pyRound 2 hit_rate
            avg_llm_latency_ms := pyRound 2 avg_llm_latency
            avg_cache_latency_ms := pyRound 2 avg_cache_latency
            latency_improvement_ms := pyRound 2 latency_improvement
            avg_similarity_score := pyRound 3 avg_similarity
            estimated_cost_savings_usd := pyRound 4 estimated_cost_savings }
        latency_percentiles := _calculate_percentiles llm_latencies
        cache_latency_percentiles := _calculate_percentiles cache_latencies
        similarity_distribution := _analyze_similarity_distribution similarities
        time_analysis := _analyze_by_time data
        recommendations :=
          _generate_recommendations hit_rate avg_similarity latency_improvement }

/-- The analyzer object's state: `self.data`, the loaded records.  `analyze`
builds every intermediate list afresh (`sorted(values)`, comprehensions) and
never writes to `self.data`, so running it is a pure read. -/
structure AnalyzerState where
  data : List LogRecord
deriving DecidableEq, Repr

/-- One invocation of `ShadowDataAnalyzer.analyze` as a state transformer:
the produced report together with the analyzer state it leaves behind. -/
def runAnalyzer (st : AnalyzerState) : Except String Report × AnalyzerState :=
  (analyze st.data, st)

end Analytics

namespace Analytics

/-- A well-formed shadow record with a cache hit (sample data for concrete
evaluations). -/
def sampleHit : LogRecord :=
  { cache_hit := true, llm_latency_ms := some 612, cache_latency_ms := some 8,
    similarity_score := some (86/100), timestamp := "2025-05-27T15:04:32.123Z" }

/-- A well-formed shadow record with a cache miss (sample data). -/
def sampleMiss : LogRecord :=
  { cache_hit := false, llm_latency_ms := some 500, cache_latency_ms := none,
    similarity_score := none, timestamp := "2025-05-27T16:10:00.000Z" }

/-- A record whose LLM latency is present and equal to `0` — non-null, but
falsy for Python truthiness. -/
def zeroLatencyRecord : LogRecord :=
  { cache_hit := false, llm_latency_ms := some 0, cache_latency_ms := none,
    similarity_score := none, timestamp := "2025-05-27T17:00:00.000Z" }

/-- A record whose LLM latency is present and equal to `10`. -/
def tenLatencyRecord : LogRecord :=
  { cache_hit := false, llm_latency_ms := some 10, cache_latency_ms := none,
    similarity_score := none, timestamp := "2025-05-27T17:05:00.000Z" }

/-- The ascending latency series `[1, 2, …, 100]` of the spec's percentile
test vector. -/
def ascending100 : List ℚ := [1, 2, 3, 4, 5, 6, 7, 8, 9, 10, 11, 12, 13, 14, 15, 16, 17, 18, 19, 20, 21, 22, 23, 24, 25, 26, 27, 28, 29, 30, 31, 32, 33, 34, 35, 36, 37, 38, 39, 40, 41, 42, 43, 44, 45, 46, 47, 48, 49, 50, 51, 52, 53, 54, 55, 56, 57, 58, 59, 60, 61, 62, 63, 64, 65, 66, 67, 68, 69, 70, 71, 72, 73, 74, 75, 76, 77, 78, 79, 80, 81, 82, 83, 84, 85, 86, 87, 88, 89, 90, 91, 92, 93, 94, 95, 96, 97, 98, 99, 100]

end Analytics

/-! ## Helper lemmas -/

/-- In the ascending insertion sort of a non-empty list `l`, the entry at the
last index (`l.length - 1`) belongs to `l` and bounds every element of `l`:
it is the maximum. -/
theorem insertionSort_getD_last_is_max (l : List ℚ) (h : l ≠ []) :
    (List.insertionSort (· ≤ ·) l).getD (l.length - 1) 0 ∈ l ∧
      ∀ x ∈ l, x ≤ (List.insertionSort (· ≤ ·) l).getD (l.length - 1) 0 := by
  have hperm : List.Perm (List.insertionSort (· ≤ ·) l) l :=
    List.perm_insertionSort _ l
  have hlen : (List.insertionSort (· ≤ ·) l).length = l.length :=
    List.length_insertionSort _ l
  have hpos : 0 < l.length := List.length_pos.mpr h
  have hidx : l.length - 1 < (List.insertionSort (· ≤ ·) l).length := by omega
  have hget : (List.insertionSort (· ≤ ·) l).getD (l.length - 1) 0
      = (List.insertionSort (· ≤ ·) l).get ⟨l.length - 1, hidx⟩ :=
    List.getD_eq_get _ _ hidx
  constructor
  · rw [hget]
    exact hperm.mem_iff.mp (List.get_mem _ _ _)
  · intro x hx
    have hxs : x ∈ List.insertionSort (· ≤ ·) l := hperm.mem_iff.mpr hx
    obtain ⟨k, hk⟩ := List.mem_iff_get.mp hxs
    rw [hget, ← hk]
    exact (List.sorted_insertionSort _ l).rel_get_of_le
      (by simp only [Fin.le_def]; omega)

/-! ## Claims -/

/-- C1: with shadow mode enabled, the caller-visible reply of the `/query`
handler is exactly the LLM call's result — response text, `source = "llm"`,
`similarity = null` — identical to the transparent passthrough taken when the
shadow/cache instrumentation is disabled (§4.1: disabled means call the LLM,
return its result, do nothing else), and independent of the cache probe's
outcome: two runs that differ only in what the cache search returned produce
the same reply, so the probe and the shadow logging never alter the returned
response, its source field, or its type. -/
theorem shadow_mode_noninterference
    (s s' : List FlaskApp.Candidate) (llm q : String) (t : ℚ) :
    (FlaskApp.query true true s llm q t).reply
        = { response := llm, source := "llm", similarity := none } ∧
      (FlaskApp.query true true s llm q t).reply
        = (FlaskApp.query false false s llm q t).reply ∧
      (FlaskApp.query true true s llm q t).reply
        = (FlaskApp.query true true s' llm q t).reply := by
  refine ⟨?_, ?_, ?_⟩ <;> cases s <;> cases s' <;> rfl

/-- C2: every shadow record the `/query` handler writes with
`cache_hit = false` has `similarity_score`, `cache_response` and
`matched_query` all null; and persisting a record (`log_shadow_data`) is a
pure append that leaves every previously stored record unchanged. -/
theorem miss_record_null_fields
    (u sh : Bool) (s : List FlaskApp.Candidate) (llm q : String) (t : ℚ)
    (r : FlaskApp.ShadowRecord)
    (hr : (FlaskApp.query u sh s llm q t).shadowRecord = some r)
    (hmiss : r.cache_hit = false) :
    r.similarity_score = none ∧ r.cache_response = none ∧
      r.matched_query = none ∧
      ∀ (store : List FlaskApp.ShadowRecord) (r2 : FlaskApp.ShadowRecord),
        (FlaskApp.log_shadow_data store r2).take store.length = store := by
  have happend : ∀ (store : List FlaskApp.ShadowRecord)
      (r2 : FlaskApp.ShadowRecord),
      (FlaskApp.log_shadow_data store r2).take store.length = store :=
    fun store r2 => List.take_left store [r2]
  cases u with
  | false => simp [FlaskApp.query] at hr
  | true =>
    cases sh with
    | false => cases s <;> simp [FlaskApp.query] at hr
    | true =>
      cases s with
      | cons best rest =>
        rw [show (FlaskApp.query true true (best :: rest) llm q t).shadowRecord
            = some { query := q, llm_response := llm, cache_hit := true,
                     cache_response := some (best.response.getD ""),
                     similarity_score := some (1 - best.distance.getD 1),
                     matched_query := some (best.prompt.getD ""),
                     llm_latency_ms := t } from rfl] at hr
        cases Option.some.inj hr
        simp at hmiss
      | nil =>
        rw [show (FlaskApp.query true true [] llm q t).shadowRecord
            = some { query := q, llm_response := llm, cache_hit := false,
                     cache_response := none, similarity_score := none,
                     matched_query := none, llm_latency_ms := t } from rfl] at hr
        cases Option.some.inj hr
        exact ⟨rfl, rfl, rfl, happend⟩

/-- Witness for C2 at a concrete miss: shadow mode, empty search result. -/
theorem miss_record_null_fields_witness :
    ({ query := "q", llm_response := "a", cache_hit := false,
       cache_response := none, similarity_score := none,
       matched_query := none,
       llm_latency_ms := 5 } : FlaskApp.ShadowRecord).similarity_score = none ∧
      ({ query := "q", llm_response := "a", cache_hit := false,
         cache_response := none, similarity_score := none,
         matched_query := none,
         llm_latency_ms := 5 } : FlaskApp.ShadowRecord).cache_response = none ∧
      ({ query := "q", llm_response := "a", cache_hit := false,
         cache_response := none, similarity_score := none,
         matched_query := none,
         llm_latency_ms := 5 } : FlaskApp.ShadowRecord).matched_query = none ∧
      ∀ (store : List FlaskApp.ShadowRecord) (r2 : FlaskApp.ShadowRecord),
        (FlaskApp.log_shadow_data store r2).take store.length = store :=
  miss_record_null_fields true true [] "a" "q" 5 _ rfl rfl

/-- C10: every shadow record written on a cache hit records
`similarity_score = 1 − distance`, with the candidate's missing `distance`
defaulting to `1.0`; in particular a hit candidate without a distance is
recorded with similarity `0.0` (a non-null value), never with null. -/
theorem hit_record_similarity
    (best : FlaskApp.Candidate) (rest : List FlaskApp.Candidate)
    (llm q : String) (t : ℚ) :
    ((FlaskApp.query true true (best :: rest) llm q t).shadowRecord.map
        (·.similarity_score)) = some (some (1 - best.distance.getD 1)) ∧
      (best.distance = none →
        ((FlaskApp.query true true (best :: rest) llm q t).shadowRecord.map
            (·.similarity_score)) = some (some 0)) := by
  constructor
  · rfl
  · intro hd
    simp [FlaskApp.query, hd]

/-- Witness for C10: a hit whose candidate reports no distance is logged
with similarity `0`, not null. -/
theorem hit_record_similarity_witness :
    ((FlaskApp.query true true [⟨some "cached", none, some "p"⟩] "a" "q" 5
        ).shadowRecord.map (·.similarity_score)) = some (some 0) :=
  (hit_record_similarity ⟨some "cached", none, some "p"⟩ [] "a" "q" 5).2 rfl

/-- C3: live-mode threshold.  With credentials present and a 200 search reply
whose best candidate has similarity strictly above `0.8` and non-empty
response text, the cached response is returned (`cached = true`,
`source = "langcache"`, reason `cache_hit`, annotated with the similarity,
matched query and cache latency).  When the best candidate's similarity is
`0.8` or below, the engine falls through to a fresh LLM call and returns it
with reason `cache_miss` even though a candidate existed. -/
theorem live_mode_threshold
    (best : SimpleChatbot.LiveCandidate)
    (rest : List SimpleChatbot.LiveCandidate)
    (llm : Except String String) (store : Except String Nat) (cl ll : ℚ) :
    (8/10 < best.similarity.getD 0 → best.response.getD "" ≠ "" →
      SimpleChatbot.chat_with_langcache_live true
          (.ok ⟨200, best :: rest⟩) llm store cl ll
        = .ok { response := best.response.getD "", cached := true,
                source := "langcache",
                similarity := some (best.similarity.getD 0),
                matched_query := some (best.prompt.getD ""),
                reason := "cache_hit", cache_latency := some cl,
                llm_latency := none }) ∧
      (best.similarity.getD 0 ≤ 8/10 → ∀ t st, llm = .ok t → store = .ok st →
        SimpleChatbot.chat_with_langcache_live true
            (.ok ⟨200, best :: rest⟩) llm store cl ll
          = .ok { response := t, cached := false, source := "openai",
                  similarity := none, matched_query := none,
                  reason := "cache_miss", cache_latency := none,
                  llm_latency := some ll }) := by
  constructor
  · intro hsim hresp
    simp [SimpleChatbot.chat_with_langcache_live, hsim, hresp]
  · intro hsim t st hllm hstore
    subst hllm
    subst hstore
    simp [SimpleChatbot.chat_with_langcache_live, not_lt.mpr hsim]

/-- Witness for C3: similarity `0.81` serves the cached response with reason
`cache_hit`; similarity `0.79` falls through to the LLM with reason
`cache_miss`. -/
theorem live_mode_threshold_witness :
    SimpleChatbot.chat_with_langcache_live true
        (.ok ⟨200, [⟨some (81/100), some "p", some "cached"⟩]⟩)
        (.ok "fresh") (.ok 200) 3 7
      = .ok { response := "cached", cached := true, source := "langcache",
              similarity := some (81/100), matched_query := some "p",
              reason := "cache_hit", cache_latency := some 3,
              llm_latency := none } ∧
      SimpleChatbot.chat_with_langcache_live true
          (.ok ⟨200, [⟨some (79/100), some "p", some "cached"⟩]⟩)
          (.ok "fresh") (.ok 200) 3 7
        = .ok { response := "fresh", cached := false, source := "openai",
                similarity := none, matched_query := none,
                reason := "cache_miss", cache_latency := none,
                llm_latency := some 7 } :=
  ⟨(live_mode_threshold ⟨some (81/100), some "p", some "cached"⟩ []
      (.ok "fresh") (.ok 200) 3 7).1
      (by norm_num : (8/10 : ℚ) < (81/100 : ℚ)) (by decide),
   (live_mode_threshold ⟨some (79/100), some "p", some "cached"⟩ []
      (.ok "fresh") (.ok 200) 3 7).2
      (by norm_num : (79/100 : ℚ) ≤ (8/10 : ℚ)) "fresh" 200 rfl rfl⟩

/-- C6 counterexample: an exception from the best-effort store is *not*
degraded to a no-op.  With no cache candidate, a successful LLM answer and a
store call that raises, the engine routes through the generic handler and
returns reason `error: boom` — a different result from the one produced when
the store succeeds (reason `cache_miss`), refuting "a failure of the store
does not affect the returned answer / degrades that step to a no-op". -/
theorem live_store_failure_not_noop :
    (SimpleChatbot.chat_with_langcache_live true (.ok ⟨200, []⟩)
        (.ok "answer") (.error "boom") 3 7).toOption.map (·.reason)
      = some "error: boom" ∧
      (SimpleChatbot.chat_with_langcache_live true (.ok ⟨200, []⟩)
          (.ok "answer") (.ok 200) 3 7).toOption.map (·.reason)
        = some "cache_miss" ∧
      SimpleChatbot.chat_with_langcache_live true (.ok ⟨200, []⟩)
          (.ok "answer") (.error "boom") 3 7
        ≠ SimpleChatbot.chat_with_langcache_live true (.ok ⟨200, []⟩)
            (.ok "answer") (.ok 200) 3 7 := by
  refine ⟨rfl, rfl, fun hcontra => ?_⟩
  have hreason := congrArg (fun x => x.toOption.map (·.reason)) hcontra
  exact absurd hreason (by decide)

/-- C6 amended: exceptions during the cache probe or the cache store are
caught — the engine's result is an exception only when the LLM call itself
raises, and whenever the LLM succeeds the caller receives a result — but a
probe or store exception is routed through the generic error handler rather
than degraded to a no-op: the handler invokes the LLM (a second time, in the
store case, discarding the already-obtained answer) and returns the LLM text
with reason `error: <detail>` instead of the `cache_miss` annotation. -/
theorem live_error_containment
    (creds : Bool) (search : Except String SimpleChatbot.SearchReply)
    (llm : Except String String) (store : Except String Nat) (cl ll : ℚ) :
    (∀ e, SimpleChatbot.chat_with_langcache_live creds search llm store cl ll
        = .error e → llm = .error e) ∧
      (∀ t, llm = .ok t → ∃ r,
        SimpleChatbot.chat_with_langcache_live creds search llm store cl ll
          = .ok r) ∧
      (∀ t e, llm = .ok t → store = .error e →
        SimpleChatbot.chat_with_langcache_live true (.ok ⟨200, []⟩)
            llm store cl ll
          = .ok (SimpleChatbot.errorResult t e)) ∧
      (∀ t e, llm = .ok t → search = .error e →
        SimpleChatbot.chat_with_langcache_live true search llm store cl ll
          = .ok (SimpleChatbot.errorResult t e)) := by
  refine ⟨?_, ?_, ?_, ?_⟩
  · intro e he
    cases creds with
    | false =>
      cases llm with
      | error e2 =>
        simp only [SimpleChatbot.chat_with_langcache_live] at he
        simpa using he
      | ok t => simp [SimpleChatbot.chat_with_langcache_live] at he
    | true =>
      cases llm with
      | error e2 =>
        cases search with
        | error e3 =>
          simp only [SimpleChatbot.chat_with_langcache_live] at he
          simpa using he
        | ok reply =>
          simp only [SimpleChatbot.chat_with_langcache_live] at he
          split at he
          · exact absurd he (by simp)
          · simpa using he
      | ok t =>
        cases search with
        | error e3 => simp [SimpleChatbot.chat_with_langcache_live] at he
        | ok reply =>
          simp only [SimpleChatbot.chat_with_langcache_live] at he
          split at he
          · exact absurd he (by simp)
          · cases store with
            | error e4 => simp at he
            | ok st => simp at he
  · intro t hllm
    subst hllm
    cases creds with
    | false => exact ⟨_, rfl⟩
    | true =>
      cases search with
      | error e3 => exact ⟨_, rfl⟩
      | ok reply =>
        simp only [SimpleChatbot.chat_with_langcache_live]
        split
        · exact ⟨_, rfl⟩
        · cases store with
          | error e4 => exact ⟨_, rfl⟩
          | ok st => exact ⟨_, rfl⟩
  · intro t e hllm hstore
    subst hllm
    subst hstore
    rfl
  · intro t e hllm hsearch
    subst hllm
    subst hsearch
    rfl

/-- Witness for C6 (amended) at concrete inputs: a raising store yields the
handler's `error: boom` result carrying the LLM's text. -/
theorem live_error_containment_witness :
    SimpleChatbot.chat_with_langcache_live true (.ok ⟨200, []⟩)
        (.ok "answer") (.error "boom") 3 7
      = .ok (SimpleChatbot.errorResult "answer" "boom") :=
  (live_error_containment true (.ok ⟨200, []⟩) (.ok "answer")
      (.error "boom") 3 7).2.2.1 "answer" "boom" rfl rfl

/-- C4 counterexample: `ShadowDataAnalyzer.load_from_file` does *not* skip a
malformed line individually.  A fallback file whose first line is malformed
followed by 3 well-formed lines loads 0 records, not 3: the single `try`
around the whole loop makes the first `json.loads` failure abort the rest of
the read. -/
theorem load_from_file_aborts_at_malformed_line :
    (Analytics.load_from_file
        [none, some Analytics.sampleMiss, some Analytics.sampleMiss,
          some Analytics.sampleMiss]).length = 0 ∧
      (0 : ℕ) ≠ 3 := by
  exact ⟨rfl, by decide⟩

/-- C4 amended: only the pilot analyzer's `load_from_file` skips each corrupt
line individually — for 3 well-formed lines and 1 malformed line in any of
the 4 positions it loads exactly the 3 well-formed records.  The shadow-data
analyzer's `load_from_file` instead stops at the first malformed line,
keeping only the well-formed lines before it (0, 1, 2 or 3 records depending
on the malformed line's position), so it reports `total_queries = 3` only
when the malformed line is last. -/
theorem loader_malformed_line_behaviour (r1 r2 r3 : Analytics.LogRecord) :
    Analytics.load_from_file_pilot [none, some r1, some r2, some r3]
        = [r1, r2, r3] ∧
      Analytics.load_from_file_pilot [some r1, none, some r2, some r3]
        = [r1, r2, r3] ∧
      Analytics.load_from_file_pilot [some r1, some r2, none, some r3]
        = [r1, r2, r3] ∧
      Analytics.load_from_file_pilot [some r1, some r2, some r3, none]
        = [r1, r2, r3] ∧
      Analytics.load_from_file [none, some r1, some r2, some r3] = [] ∧
      Analytics.load_from_file [some r1, none, some r2, some r3] = [r1] ∧
      Analytics.load_from_file [some r1, some r2, none, some r3] = [r1, r2] ∧
      Analytics.load_from_file [some r1, some r2, some r3, none]
        = [r1, r2, r3] := by
  refine ⟨rfl, rfl, rfl, rfl, rfl, rfl, rfl, rfl⟩

/-- C5: for every non-empty latency list, `_calculate_percentiles` sorts the
values ascending and returns p50/p90/p95/p99 as the element at index
`⌊n·q⌋`; each of these indices is strictly below `n` (never out of range);
whenever `n ≤ 100` the returned p99 is the maximum element of the input; and
on the ascending series `[1, …, 100]` it returns `p50 = 51`, `p90 = 91`,
`p95 = 96`, `p99 = 100`. -/
theorem percentile_function_spec (values : List ℚ) (h : values ≠ []) :
    ∃ p, Analytics._calculate_percentiles values = some p ∧
      values.length * 50 / 100 < values.length ∧
      values.length * 90 / 100 < values.length ∧
      values.length * 95 / 100 < values.length ∧
      values.length * 99 / 100 < values.length ∧
      p.p50 = (List.insertionSort (· ≤ ·) values).getD
        (values.length * 50 / 100) 0 ∧
      p.p90 = (List.insertionSort (· ≤ ·) values).getD
        (values.length * 90 / 100) 0 ∧
      p.p95 = (List.insertionSort (· ≤ ·) values).getD
        (values.length * 95 / 100) 0 ∧
      p.p99 = (List.insertionSort (· ≤ ·) values).getD
        (values.length * 99 / 100) 0 ∧
      (values.length ≤ 100 → p.p99 ∈ values ∧ ∀ x ∈ values, x ≤ p.p99) ∧
      Analytics._calculate_percentiles Analytics.ascending100
        = some ⟨51, 91, 96, 100⟩ := by
  obtain ⟨v, vs, rfl⟩ : ∃ v vs, values = v :: vs := by
    cases values with
    | nil => exact absurd rfl h
    | cons v vs => exact ⟨v, vs, rfl⟩
  have hlen : (List.insertionSort (· ≤ ·) (v :: vs)).length
      = (v :: vs).length := List.length_insertionSort _ _
  have hpos : 0 < (v :: vs).length := by simp
  refine ⟨{ p50 := (List.insertionSort (· ≤ ·) (v :: vs)).getD
              ((List.insertionSort (· ≤ ·) (v :: vs)).length * 50 / 100) 0
            p90 := (List.insertionSort (· ≤ ·) (v :: vs)).getD
              ((List.insertionSort (· ≤ ·) (v :: vs)).length * 90 / 100) 0
            p95 := (List.insertionSort (· ≤ ·) (v :: vs)).getD
              ((List.insertionSort (· ≤ ·) (v :: vs)).length * 95 / 100) 0
            p99 := (List.insertionSort (· ≤ ·) (v :: vs)).getD
              ((List.insertionSort (· ≤ ·) (v :: vs)).length * 99 / 100) 0 },
    rfl, by omega, by omega, by omega, by omega,
    by rw [hlen], by rw [hlen], by rw [hlen], by rw [hlen], ?_, rfl⟩
  intro h100
  have hidx : (List.insertionSort (· ≤ ·) (v :: vs)).length * 99 / 100
      = (v :: vs).length - 1 := by omega
  rw [hidx]
  exact insertionSort_getD_last_is_max (v :: vs) (by simp)

/-- Witness for C5 at the one-element list `[2]`: all percentile indices are
`0`, within range, and p99 is the maximum. -/
theorem percentile_function_spec_witness :
    ∃ p, Analytics._calculate_percentiles [(2 : ℚ)] = some p ∧
      [(2 : ℚ)].length * 50 / 100 < [(2 : ℚ)].length ∧
      [(2 : ℚ)].length * 90 / 100 < [(2 : ℚ)].length ∧
      [(2 : ℚ)].length * 95 / 100 < [(2 : ℚ)].length ∧
      [(2 : ℚ)].length * 99 / 100 < [(2 : ℚ)].length ∧
      p.p50 = (List.insertionSort (· ≤ ·) [(2 : ℚ)]).getD
        ([(2 : ℚ)].length * 50 / 100) 0 ∧
      p.p90 = (List.insertionSort (· ≤ ·) [(2 : ℚ)]).getD
        ([(2 : ℚ)].length * 90 / 100) 0 ∧
      p.p95 = (List.insertionSort (· ≤ ·) [(2 : ℚ)]).getD
        ([(2 : ℚ)].length * 95 / 100) 0 ∧
      p.p99 = (List.insertionSort (· ≤ ·) [(2 : ℚ)]).getD
        ([(2 : ℚ)].length * 99 / 100) 0 ∧
      ([(2 : ℚ)].length ≤ 100 → p.p99 ∈ [(2 : ℚ)] ∧
        ∀ x ∈ [(2 : ℚ)], x ≤ p.p99) ∧
      Analytics._calculate_percentiles Analytics.ascending100
        = some ⟨51, 91, 96, 100⟩ :=
  percentile_function_spec [(2 : ℚ)] (by decide)

/-- C7 counterexample: the empty record set does *not* yield a summary with
hit rate 0 — `analyze` short-circuits to the `No data to analyze` error
payload — and the reported hit-rate percent is `hits/total*100` rounded to 2
decimal places, which differs from the exact value for 1 hit in 3 records
(`33.33` vs `100/3`). -/
theorem analyze_empty_and_rounding :
    Analytics.analyze [] = Except.error "No data to analyze" ∧
      (Analytics.analyze
          [Analytics.sampleHit, Analytics.sampleMiss, Analytics.sampleMiss]
        ).toOption.map (·.summary.hit_rate_percent) = some (3333/100) ∧
      (3333/100 : ℚ) ≠ ((1 : ℚ) / 3) * 100 := by
  refine ⟨rfl, ?_, by norm_num⟩
  unfold Analytics.analyze
  rw [if_neg (by simp)]
  simp only [Except.toOption, Option.map_some]
  norm_num [Analytics.pyRound, Analytics.roundHalfEven, List.countP,
    List.countP.go, Analytics.sampleHit, Analytics.sampleMiss,
    show ∀ q : ℚ, q.floor = ⌊q⌋ from fun _ => rfl]

/-- C7 amended: for every *non-empty* record set, the summary's
`hit_rate_percent` is `hits/total*100` rounded (half to even) to 2 decimal
places, where `hits` counts the records whose `cache_hit` is true and
`total` is the number of records; the empty record set instead produces the
`No data to analyze` error payload, not a summary. -/
theorem hit_rate_formula (data : List Analytics.LogRecord) (h : data ≠ []) :
    Analytics.analyze [] = Except.error "No data to analyze" ∧
      ∃ r, Analytics.analyze data = .ok r ∧
        r.summary.total_queries = data.length ∧
        r.summary.cache_hits = data.countP (·.cache_hit) ∧
        r.summary.hit_rate_percent
          = Analytics.pyRound 2
              (((data.countP (·.cache_hit) : ℚ) / data.length) * 100) := by
  refine ⟨rfl, ?_⟩
  have hpos : 0 < data.length := List.length_pos.mpr h
  unfold Analytics.analyze
  rw [if_neg h]
  refine ⟨_, rfl, rfl, rfl, ?_⟩
  show Analytics.pyRound 2
      (if 0 < data.length
       then (((data.countP (·.cache_hit) : ℚ)) / data.length) * 100 else 0) = _
  rw [if_pos hpos]

/-- Witness for C7 (amended) on the singleton record set `[sampleHit]`. -/
theorem hit_rate_formula_witness :
    Analytics.analyze [] = Except.error "No data to analyze" ∧
      ∃ r, Analytics.analyze [Analytics.sampleHit] = .ok r ∧
        r.summary.total_queries = [Analytics.sampleHit].length ∧
        r.summary.cache_hits = [Analytics.sampleHit].countP (·.cache_hit) ∧
        r.summary.hit_rate_percent
          = Analytics.pyRound 2
              ((([Analytics.sampleHit].countP (·.cache_hit) : ℚ)
                  / [Analytics.sampleHit].length) * 100) :=
  hit_rate_formula [Analytics.sampleHit] (by decide)

/-- C8 counterexample: a record with a *present* LLM latency of `0` is
excluded from the mean — the Python filter `if d.get('llm_latency_ms')`
tests truthiness, and `0` is falsy.  For the two records with latencies
`0` and `10`, the reported mean is `10`, not the claim's `(0 + 10)/2 = 5`. -/
theorem latency_mean_excludes_zero :
    (Analytics.analyze
        [Analytics.zeroLatencyRecord, Analytics.tenLatencyRecord]
      ).toOption.map (·.summary.avg_llm_latency_ms) = some 10 ∧
      (10 : ℚ) ≠ ((0 : ℚ) + 10) / 2 := by
  refine ⟨?_, by norm_num⟩
  unfold Analytics.analyze
  rw [if_neg (by simp)]
  simp only [Except.toOption, Option.map_some]
  norm_num [Analytics.pyRound, Analytics.roundHalfEven, Analytics.listMean,
    Analytics.truthyValues, List.filterMap_cons,
    Analytics.zeroLatencyRecord, Analytics.tenLatencyRecord,
    show ∀ q : ℚ, q.floor = ⌊q⌋ from fun _ => rfl]

/-- C8 amended: for every non-empty record set, the summary's mean LLM and
cache latencies are the arithmetic means (rounded to 2 decimals) over
exactly the records whose latency field is present *and nonzero* (Python
truthiness — a present latency of `0` is excluded, contrary to the claim),
each mean defaulting to 0 when no record qualifies; and the latency
improvement is the difference of the two unrounded means, rounded to 2
decimals. -/
theorem latency_mean_formula (data : List Analytics.LogRecord)
    (h : data ≠ []) :
    ∃ r, Analytics.analyze data = .ok r ∧
      r.summary.avg_llm_latency_ms
          = Analytics.pyRound 2
              (Analytics.listMean
                (Analytics.truthyValues (·.llm_latency_ms) data)) ∧
        r.summary.avg_cache_latency_ms
          = Analytics.pyRound 2
              (Analytics.listMean
                (Analytics.truthyValues (·.cache_latency_ms) data)) ∧
        r.summary.latency_improvement_ms
          = Analytics.pyRound 2
              (Analytics.listMean
                  (Analytics.truthyValues (·.llm_latency_ms) data)
                - Analytics.listMean
                    (Analytics.truthyValues (·.cache_latency_ms) data)) := by
  unfold Analytics.analyze
  rw [if_neg h]
  exact ⟨_, rfl, rfl, rfl, rfl⟩

/-- Witness for C8 (amended) on the record set `[tenLatencyRecord]`. -/
theorem latency_mean_formula_witness :
    ∃ r, Analytics.analyze [Analytics.tenLatencyRecord] = .ok r ∧
      r.summary.avg_llm_latency_ms
          = Analytics.pyRound 2
              (Analytics.listMean
                (Analytics.truthyValues (·.llm_latency_ms)
                  [Analytics.tenLatencyRecord])) ∧
        r.summary.avg_cache_latency_ms
          = Analytics.pyRound 2
              (Analytics.listMean
                (Analytics.truthyValues (·.cache_latency_ms)
                  [Analytics.tenLatencyRecord])) ∧
        r.summary.latency_improvement_ms
          = Analytics.pyRound 2
              (Analytics.listMean
                  (Analytics.truthyValues (·.llm_latency_ms)
                    [Analytics.tenLatencyRecord])
                - Analytics.listMean
                    (Analytics.truthyValues (·.cache_latency_ms)
                      [Analytics.tenLatencyRecord])) :=
  latency_mean_formula [Analytics.tenLatencyRecord] (by decide)

/-- C9: the analytics output is a pure function of the loaded record set —
running the analyzer leaves its state (the loaded records) unchanged,
running it twice in a row produces identical reports, and any two analyzer
states holding the same records produce the same report. -/
theorem analytics_output_pure (st : Analytics.AnalyzerState) :
    (Analytics.runAnalyzer st).2 = st ∧
      (Analytics.runAnalyzer ((Analytics.runAnalyzer st).2)).1
        = (Analytics.runAnalyzer st).1 ∧
      ∀ st2 : Analytics.AnalyzerState, st2.data = st.data →
        (Analytics.runAnalyzer st2).1 = (Analytics.runAnalyzer st).1 := by
  refine ⟨rfl, rfl, fun st2 hdata => ?_⟩
  simp only [Analytics.runAnalyzer, hdata]

/-- Witness for C9 at a concrete one-record state. -/
theorem analytics_output_pure_witness :
    (Analytics.runAnalyzer ⟨[Analytics.sampleHit]⟩).2
        = (⟨[Analytics.sampleHit]⟩ : Analytics.AnalyzerState) ∧
      (Analytics.runAnalyzer ⟨[Analytics.sampleHit]⟩).1
        = (Analytics.runAnalyzer ⟨[Analytics.sampleHit]⟩).1 :=
  ⟨(analytics_output_pure ⟨[Analytics.sampleHit]⟩).1,
   (analytics_output_pure ⟨[Analytics.sampleHit]⟩).2.2
      ⟨[Analytics.sampleHit]⟩ rfl⟩
